import Mathlib

/-!
Verification of the IntelliPattern study-tracking application.

This file gives a shallow embedding, in Lean 4, of the core logic of the
repository: the data model (`models.py` / the SQLite schema created in
`app.py`), the aggregation queries and the Pattern Analysis Engine of the
`patterns` route (`app.py`, lines 270-361), and the Insight Narrative
Generator `get_ai_insights` (`app.py`, lines 92-212).  SQL queries are
embedded as list functions over the table contents; SQLite `REAL` values
and Python floats are modelled by `ℚ`; fallible code (the external
text-generation call, database access, Python exceptions) is modelled with
`Except`.  Theorems about the embedded definitions settle the claims of
the specification.
-/

namespace IntelliPattern

/-! ## Data model

The three record kinds, mirroring the SQLite schema created by `init_db`
in `app.py` (and the ORM models in `models.py`).  The `AUTOINCREMENT` id
column is omitted: none of the embedded queries observes it (`COUNT(s.id)`
counts rows because `id` is non-null).  `created_at` is the textual
timestamp assigned at insert. -/

structure StudySession where
  subject : String
  duration : ℤ
  start_time : String
  end_time : String
  study_method : String
  difficulty_level : ℤ
  focus_rating : ℤ
  notes : String
  created_at : String
deriving DecidableEq, Repr

structure PerformanceRecord where
  subject : String
  assessment_type : String
  score : ℚ
  max_score : ℚ
  date : String
  topics_covered : String
  created_at : String
deriving DecidableEq, Repr

structure WellnessEntry where
  date : String
  sleep_hours : ℚ
  stress_level : ℤ
  mood_rating : ℤ
  exercise_minutes : ℤ
  caffeine_intake : ℤ
  notes : String
  created_at : String
deriving DecidableEq, Repr

/-- The state of the single-file data store: the contents of the three
tables. -/
structure Database where
  study_sessions : List StudySession
  performance_records : List PerformanceRecord
  wellness_tracking : List WellnessEntry
deriving DecidableEq, Repr

def emptyDb : Database := ⟨[], [], []⟩

/-- SQLite `DATE(x)`: the calendar-date part of a textual timestamp,
i.e. the first 10 characters `YYYY-MM-DD`. -/
def sqlDATE (s : String) : String := s.take 10

/-! ## Numeric display helpers

Python formats the aggregate figures with `:.0f` and `:.1f`; `round` and
float formatting round half to even. -/

/-- Round a rational to the nearest integer, halves to even. -/
def roundHalfEven (q : ℚ) : ℤ :=
  let f : ℤ := ⌊q⌋
  let frac : ℚ := q - (f : ℚ)
  if frac < 1/2 then f
  else if 1/2 < frac then f + 1
  else if f % 2 = 0 then f else f + 1

/-- Python `round(x, 1)`. -/
def round1 (q : ℚ) : ℚ := (roundHalfEven (10 * q) : ℚ) / 10

/-- Python `"%.0f" % x` on the non-negative figures the app displays. -/
def fmt0 (q : ℚ) : String := toString (roundHalfEven q)

/-- Python `"%.1f" % x` on the non-negative figures the app displays. -/
def fmt1 (q : ℚ) : String :=
  let n := roundHalfEven (10 * q)
  toString (n / 10) ++ "." ++ toString (n % 10)

/-- Derived attribute of `PerformanceRecord` (`models.py`, lines 68-71):
`round((self.score / self.max_score) * 100, 1)`.  The division is
unguarded; on `max_score = 0` Python raises `ZeroDivisionError`, modelled
by the `Except.error` branch. -/
def PerformanceRecord.percentage (r : PerformanceRecord) : Except String ℚ :=
  if r.max_score = 0 then
    Except.error "ZeroDivisionError: float division by zero"
  else
    Except.ok (round1 (r.score / r.max_score * 100))

/-! ## Ordering helpers for SQL `ORDER BY` -/

variable {α : Type}

/-- `ORDER BY f(x) DESC`: `a` comes before `b` when `f b ≤ f a`. -/
def descBy {β : Type} [LinearOrder β] (f : α → β) (a b : α) : Prop := f b ≤ f a

/-- `ORDER BY f(x)` ascending. -/
def ascBy {β : Type} [LinearOrder β] (f : α → β) (a b : α) : Prop := f a ≤ f b

instance {β : Type} [LinearOrder β] (f : α → β) : DecidableRel (descBy f) :=
  fun a b => inferInstanceAs (Decidable (f b ≤ f a))

instance {β : Type} [LinearOrder β] (f : α → β) : DecidableRel (ascBy f) :=
  fun a b => inferInstanceAs (Decidable (f a ≤ f b))

instance {β : Type} [LinearOrder β] (f : α → β) : IsTotal α (descBy f) :=
  ⟨fun a b => le_total (f b) (f a)⟩

instance {β : Type} [LinearOrder β] (f : α → β) : IsTotal α (ascBy f) :=
  ⟨fun a b => le_total (f a) (f b)⟩

instance {β : Type} [LinearOrder β] (f : α → β) : IsTrans α (descBy f) :=
  ⟨fun _ _ _ h1 h2 => le_trans h2 h1⟩

instance {β : Type} [LinearOrder β] (f : α → β) : IsTrans α (ascBy f) :=
  ⟨fun _ _ _ h1 h2 => le_trans h1 h2⟩

/-! ## Aggregation queries of the `patterns` route (`app.py`, lines 276-301) -/

/-- Row shape of the first query:
`SELECT focus_rating, AVG(duration) as avg_duration FROM study_sessions
GROUP BY focus_rating ORDER BY focus_rating`. -/
structure FocusRow where
  focus_rating : ℤ
  avg_duration : ℚ
deriving DecidableEq, Repr

/-- The sessions contributing to the `GROUP BY focus_rating` group `k`. -/
def ratingGroup (ss : List StudySession) (k : ℤ) : List StudySession :=
  ss.filter fun s => decide (s.focus_rating = k)

/-- The aggregate row of the `GROUP BY focus_rating` group `k`. -/
def focusRowOf (ss : List StudySession) (k : ℤ) : FocusRow :=
  { focus_rating := k
    avg_duration := (((ratingGroup ss k).map StudySession.duration).sum : ℚ) /
      ((ratingGroup ss k).length : ℚ) }

/-- The `focus_data` query of the `patterns` route. -/
def focus_data (ss : List StudySession) : List FocusRow :=
  List.insertionSort (ascBy FocusRow.focus_rating)
    (((ss.map StudySession.focus_rating).dedup).map (focusRowOf ss))

/-- Row shape of the second query:
`SELECT s.subject, AVG(s.focus_rating) as avg_focus, COUNT(s.id) as session_count,
SUM(s.duration) as total_minutes FROM study_sessions s GROUP BY s.subject
HAVING session_count >= 2 ORDER BY avg_focus DESC`. -/
structure SubjectRow where
  subject : String
  avg_focus : ℚ
  session_count : ℕ
  total_minutes : ℤ
deriving DecidableEq, Repr

/-- The sessions contributing to the `GROUP BY s.subject` group `subj`. -/
def subjectGroup (ss : List StudySession) (subj : String) : List StudySession :=
  ss.filter fun s => decide (s.subject = subj)

/-- The aggregate row of the `GROUP BY s.subject` group `subj`. -/
def subjectRowOf (ss : List StudySession) (subj : String) : SubjectRow :=
  { subject := subj
    avg_focus := (((subjectGroup ss subj).map StudySession.focus_rating).sum : ℚ) /
      ((subjectGroup ss subj).length : ℚ)
    session_count := (subjectGroup ss subj).length
    total_minutes := ((subjectGroup ss subj).map StudySession.duration).sum }

/-- One aggregate row per distinct subject (before the `HAVING` filter). -/
def subjectRows (ss : List StudySession) : List SubjectRow :=
  ((ss.map StudySession.subject).dedup).map (subjectRowOf ss)

/-- The `subject_performance` query of the `patterns` route. -/
def subject_performance (ss : List StudySession) : List SubjectRow :=
  List.insertionSort (descBy SubjectRow.avg_focus)
    ((subjectRows ss).filter fun r => decide (2 ≤ r.session_count))

/-- Row shape of the third query:
`SELECT w.sleep_hours, w.stress_level, AVG(s.focus_rating) as avg_focus
FROM wellness_tracking w JOIN study_sessions s ON DATE(w.date) = DATE(s.created_at)
GROUP BY w.sleep_hours, w.stress_level HAVING COUNT(*) >= 2`. -/
structure CorrRow where
  sleep_hours : ℚ
  stress_level : ℤ
  avg_focus : ℚ
deriving DecidableEq, Repr

/-- The rows of the join `wellness_tracking JOIN study_sessions ON
DATE(w.date) = DATE(s.created_at)`. -/
def joinRows (db : Database) : List (WellnessEntry × StudySession) :=
  db.wellness_tracking.flatMap fun w =>
    (db.study_sessions.filter fun s =>
      decide (sqlDATE w.date = sqlDATE s.created_at)).map fun s => (w, s)

/-- The `GROUP BY w.sleep_hours, w.stress_level` key of a join row. -/
def corrKey (p : WellnessEntry × StudySession) : ℚ × ℤ :=
  (p.1.sleep_hours, p.1.stress_level)

/-- The join rows contributing to the group with key `k`. -/
def corrGroup (db : Database) (k : ℚ × ℤ) : List (WellnessEntry × StudySession) :=
  (joinRows db).filter fun p => decide (corrKey p = k)

/-- The aggregate row of the `GROUP BY w.sleep_hours, w.stress_level`
group with key `k`. -/
def corrRowOf (db : Database) (k : ℚ × ℤ) : CorrRow :=
  { sleep_hours := k.1
    stress_level := k.2
    avg_focus := (((corrGroup db k).map fun p => p.2.focus_rating).sum : ℚ) /
      ((corrGroup db k).length : ℚ) }

/-- The `wellness_study_correlation` query of the `patterns` route. -/
def wellness_study_correlation (db : Database) : List CorrRow :=
  ((((joinRows db).map corrKey).dedup).filter fun k =>
      decide (2 ≤ (corrGroup db k).length)).map (corrRowOf db)

/-- Modelled from the spec: the spec describes `sleepFocusCorrelation()` as
"grouped by matching calendar date between wellness entries and study
sessions, restricted to groups with count ≥ 2".  This definition follows
those words — the grouping key is the shared calendar date — so it can be
compared with `wellness_study_correlation`, whose source groups by
`(sleep_hours, stress_level)` instead.  The representative wellness values
of a date group are taken from its first join row. -/
def spec_sleepFocusCorrelation_byDate (db : Database) : List CorrRow :=
  (((((joinRows db).map fun p => sqlDATE p.1.date).dedup).filter fun d =>
      decide (2 ≤ ((joinRows db).filter fun p =>
        decide (sqlDATE p.1.date = d)).length)).map fun d =>
    match (joinRows db).filter fun p => decide (sqlDATE p.1.date = d) with
    | [] => { sleep_hours := 0, stress_level := 0, avg_focus := 0 }
    | p :: ps =>
      { sleep_hours := p.1.sleep_hours
        stress_level := p.1.stress_level
        avg_focus := ((((p :: ps).map fun q => q.2.focus_rating).sum : ℚ) /
          (((p :: ps)).length : ℚ)) })

/-! ## Pattern Analysis Engine (`app.py`, lines 305-359) -/

/-- One qualitative finding, as the dicts appended to the `patterns` list. -/
structure Finding where
  title : String
  description : String
  recommendation : String
  type : String
deriving DecidableEq, Repr

def high_focus_finding (avg_duration : ℚ) : Finding :=
  { title := "🎯 High Focus Sessions"
    description := "Your high-focus sessions (4-5 rating) average " ++
      fmt0 avg_duration ++ " minutes"
    recommendation := "Try to replicate conditions that lead to high focus sessions!"
    type := "positive" }

def top_subject_finding (best : SubjectRow) : Finding :=
  { title := "📚 Top Subject: " ++ best.subject
    description := "Average focus rating: " ++ fmt1 best.avg_focus ++ "/5 (" ++
      toString best.session_count ++ " sessions)"
    recommendation := "You focus well on " ++ best.subject ++
      ". Apply similar techniques to other subjects."
    type := "insight" }

def struggling_finding (s : SubjectRow) : Finding :=
  { title := "⚠️ Needs Attention: " ++ s.subject
    description := "Average focus rating: " ++ fmt1 s.avg_focus ++ "/5"
    recommendation := "Try different study methods for " ++ s.subject ++
      " or study it when you are most alert."
    type := "warning" }

def sleep_finding (avg_focus : ℚ) : Finding :=
  { title := "😴 Sleep & Focus Connection"
    description := "With 7+ hours sleep, your average focus is " ++
      fmt1 avg_focus ++ "/5"
    recommendation := "Prioritize getting enough sleep for better study sessions!"
    type := "insight" }

def getting_started_finding : Finding :=
  { title := "📊 Getting Started"
    description := "Keep logging your study sessions to discover your personal learning patterns!"
    recommendation := "Try logging at least 5-10 study sessions to see meaningful insights."
    type := "info" }

/-- `high_focus_sessions`: the rows of `focus_data` with `focus_rating >= 4`. -/
def high_focus_rows (ss : List StudySession) : List FocusRow :=
  (focus_data ss).filter fun r => decide (4 ≤ r.focus_rating)

/-- The unweighted mean of the average durations of the high-focus rows:
`sum(row.avg_duration for row in high_focus_sessions) / len(high_focus_sessions)`. -/
def high_focus_mean (ss : List StudySession) : ℚ :=
  ((high_focus_rows ss).map FocusRow.avg_duration).sum / ((high_focus_rows ss).length : ℚ)

/-- Step 1 of the engine: the high-focus duration pattern
(`if focus_data:` / `if high_focus_sessions:`). -/
def step_high_focus (ss : List StudySession) : List Finding :=
  if focus_data ss = [] then []
  else if high_focus_rows ss = [] then []
  else [high_focus_finding (high_focus_mean ss)]

/-- Step 3 of the engine: `subject_performance[-1]` exists exactly when
`len(subject_performance) > 1`, i.e. when the tail of the summary is
non-empty; the warning is appended when its `avg_focus < 3.0`. -/
def struggling_tail (rest : List SubjectRow) : List Finding :=
  match rest.getLast? with
  | none => []
  | some strug => if strug.avg_focus < 3 then [struggling_finding strug] else []

/-- Steps 2 and 3 of the engine: the top-subject insight
(`subject_performance[0]`) and, when `len(subject_performance) > 1` and the
last row has `avg_focus < 3.0`, the struggling-subject warning
(`subject_performance[-1]`). -/
def step_subjects (ss : List StudySession) : List Finding :=
  match subject_performance ss with
  | [] => []
  | best :: rest => top_subject_finding best :: struggling_tail rest

/-- `high_sleep_focus`: the correlation rows with `sleep_hours >= 7`. -/
def high_sleep_rows (db : Database) : List CorrRow :=
  (wellness_study_correlation db).filter fun r => decide (7 ≤ r.sleep_hours)

/-- `avg_focus_good_sleep`: unweighted mean of the high-sleep rows. -/
def high_sleep_mean (db : Database) : ℚ :=
  ((high_sleep_rows db).map CorrRow.avg_focus).sum / ((high_sleep_rows db).length : ℚ)

/-- Step 4 of the engine: the sleep-correlation insight. -/
def step_sleep (db : Database) : List Finding :=
  if wellness_study_correlation db = [] then []
  else if high_sleep_rows db = [] then []
  else [sleep_finding (high_sleep_mean db)]

/-- The findings appended by steps 1-4, in emission order. -/
def rule_findings (db : Database) : List Finding :=
  step_high_focus db.study_sessions ++ step_subjects db.study_sessions ++ step_sleep db

/-- The full engine of the `patterns` route: steps 1-4 followed by the
`if not patterns:` fallback. -/
def patterns (db : Database) : List Finding :=
  if rule_findings db = [] then [getting_started_finding] else rule_findings db

/-- The `/patterns` request handler seen from the data store: the route has
no exception handler, so the outcome of the database reads (modelled as an
`Except`) propagates unmodified. -/
def patterns_route (dbResult : Except String Database) : Except String (List Finding) :=
  dbResult.map patterns

/-- The `/patterns` route of the multi-user variant (`app_old.py`, lines
273-306).  Its body is a textual copy of the single-user route, but its
first statement calls `get_db_connection()`, a name neither defined nor
imported anywhere in `app_old.py` (the file imports only flask,
flask_sqlalchemy, flask_migrate, flask_login, datetime, os,
google.generativeai, dotenv, json, models and forms), so Python raises
`NameError` on every invocation, whatever the data store holds. -/
def app_old_patterns_route (_db : Database) : Except String (List Finding) :=
  Except.error "NameError: name get_db_connection is not defined"

/-! ## Insight Narrative Generator (`get_ai_insights`, `app.py` lines 92-212)

The external text-generation call `model.generate_content(prompt)` is
modelled by a function `String → Except String String`: `Except.ok t`
stands for a response whose `.text` is `t`, `Except.error e` for a raised
service exception whose `str(e)` is `e`.  The outcome of the database
reads inside the `try` block is likewise an `Except String Database`.
Contractions of the English prose ("I'm", "don't", ...) are written out in
the embedded message texts; no theorem depends on those characters. -/

/-- Returned when `model` is `None` (no `GEMINI_API_KEY` configured). -/
def ai_unavailable_message : String :=
  "🤖 AI analysis unavailable - Please configure your API key in the .env file."

/-- Returned when fewer than 3 study sessions exist; the argument is
`len(study_data)`, spliced by `.format`. -/
def getting_started_message (count : ℕ) : String :=
  "🚀 **Getting Started with AI Analysis**\n\n" ++
  "Welcome to your AI Learning Coach! I am here to help you optimize your academic performance.\n\n" ++
  "**Current Status:** You have " ++ toString count ++
  " study session(s) logged. To provide meaningful insights, I recommend logging at least 5-10 study sessions along with some wellness data.\n\n" ++
  "**Quick Tips to Get Started:**\n" ++
  "• Log your study sessions with honest focus ratings\n" ++
  "• Track your sleep and stress levels in the wellness section\n" ++
  "• Record any test scores or assignment grades\n" ++
  "• Be consistent - even 5 minutes of logging can reveal patterns!\n\n" ++
  "**What I will Analyze Once You Have More Data:**\n" ++
  "✨ Peak performance times and optimal study durations\n" ++
  "📊 Correlations between sleep, stress, and focus\n" ++
  "📚 Which subjects and study methods work best for you\n" ++
  "🎯 Personalized recommendations for improvement\n\n" ++
  "Keep logging your data - I will be ready with insights soon! 🎓"

/-- The text of the `except` fallback before the captured error detail. -/
def ai_fallback_pre : String :=
  "🤖 **AI Analysis Temporarily Unavailable**\n\n" ++
  "I am having trouble analyzing your data right now, but do not worry! Here are some general insights while I get back online:\n\n" ++
  "**Keep These Habits Strong:**\n" ++
  "• Maintain consistent study sessions\n" ++
  "• Track your focus and energy levels honestly  \n" ++
  "• Log your wellness data regularly\n\n" ++
  "**Try This Week:**\n" ++
  "• Experiment with different study times to find your peak hours\n" ++
  "• Notice how sleep affects your focus ratings\n" ++
  "• Test different study methods and see what works\n\n" ++
  "Error details: "

/-- The text of the `except` fallback after the captured error detail. -/
def ai_fallback_post : String :=
  "\n\nTry refreshing the page in a few minutes! 🔄"

/-- The static fallback returned by the `except Exception as e:` handler:
it embeds `str(e)` between the two static halves. -/
def ai_error_fallback (e : String) : String :=
  ai_fallback_pre ++ e ++ ai_fallback_post

/-- `study_data`: the most recent 20 sessions
(`ORDER BY created_at DESC LIMIT 20`). -/
def study_data (db : Database) : List StudySession :=
  (List.insertionSort (descBy StudySession.created_at) db.study_sessions).take 20

/-- `performance_data`: the most recent 10 records (`ORDER BY date DESC LIMIT 10`). -/
def performance_data (db : Database) : List PerformanceRecord :=
  (List.insertionSort (descBy PerformanceRecord.date) db.performance_records).take 10

/-- `wellness_data`: the most recent 10 entries (`ORDER BY date DESC LIMIT 10`). -/
def wellness_data (db : Database) : List WellnessEntry :=
  (List.insertionSort (descBy WellnessEntry.date) db.wellness_tracking).take 10

/-- Summary statistics row: `COUNT(*)`, `AVG(focus_rating)`, `AVG(duration)`,
`COUNT(DISTINCT subject)` over `study_sessions`. -/
structure SummaryStats where
  total_sessions : ℕ
  avg_focus : ℚ
  avg_duration : ℚ
  subjects_count : ℕ
deriving DecidableEq, Repr

def summary_stats (db : Database) : SummaryStats :=
  { total_sessions := db.study_sessions.length
    avg_focus := ((db.study_sessions.map StudySession.focus_rating).sum : ℚ) /
      (db.study_sessions.length : ℚ)
    avg_duration := ((db.study_sessions.map StudySession.duration).sum : ℚ) /
      (db.study_sessions.length : ℚ)
    subjects_count := (db.study_sessions.map StudySession.subject).dedup.length }

/-- Rendering of one study session into the prompt payload, with the
columns the query selects. -/
def serializeSession (s : StudySession) : String :=
  s.subject ++ " " ++ toString s.duration ++ " " ++ toString s.focus_rating ++ " " ++
    toString s.difficulty_level ++ " " ++ s.study_method ++ " " ++
    sqlDATE s.created_at ++ " " ++ s.start_time ++ " " ++ s.end_time

def serializePerformance (p : PerformanceRecord) : String :=
  p.subject ++ " " ++ toString p.score ++ " " ++ toString p.max_score ++ " " ++
    p.assessment_type ++ " " ++ p.date

def serializeWellness (w : WellnessEntry) : String :=
  toString w.sleep_hours ++ " " ++ toString w.stress_level ++ " " ++
    toString w.mood_rating ++ " " ++ toString w.exercise_minutes ++ " " ++
    toString w.caffeine_intake ++ " " ++ sqlDATE w.date

def serializeStats (st : SummaryStats) : String :=
  toString st.total_sessions ++ " " ++ toString st.avg_focus ++ " " ++
    toString st.avg_duration ++ " " ++ toString st.subjects_count

/-- The fixed prompt template around the serialized `data_summary`.  The
exact JSON rendering of `json.dumps` is modelled by a plain rendering of
the same four inputs; no claim depends on the concrete prompt text, only
on it being a function of the data. -/
def build_prompt (db : Database) : String :=
  "\n        You are an expert AI learning coach analyzing a student academic performance data set. Be encouraging, specific, and actionable.\n\n" ++
  "        Student Data Analysis:\n        " ++
  serializeStats (summary_stats db) ++ "\n" ++
  String.intercalate "\n" ((study_data db).map serializeSession) ++ "\n" ++
  String.intercalate "\n" ((performance_data db).map serializePerformance) ++ "\n" ++
  String.intercalate "\n" ((wellness_data db).map serializeWellness) ++ "\n\n" ++
  "        Provide insights in this format:\n\n" ++
  "        **🎯 KEY PATTERNS DISCOVERED**\n        [Identify 2-3 most important patterns in their data]\n\n" ++
  "        **📊 PERFORMANCE CORRELATIONS** \n        [Correlations between wellness factors and academic performance]\n\n" ++
  "        **💪 YOUR STRENGTHS**\n        [What they are doing well - be specific with data]\n\n" ++
  "        **🚀 OPTIMIZATION OPPORTUNITIES**\n        [Specific, actionable recommendations]\n\n" ++
  "        **📅 NEXT STEPS**\n        [Concrete actions they can take this week]\n\n" ++
  "        Keep response under 400 words. Use data points and be encouraging. Include emojis for engagement.\n        "

/-- The Insight Narrative Generator.  `configured` is whether `model` is
set (a `GEMINI_API_KEY` was present); `dbResult` is the outcome of the
database reads inside the `try` block; `generate_content` is the external
text-generation service.  The `except Exception as e:` handler wraps both
the database reads and the service call. -/
def get_ai_insights (configured : Bool) (dbResult : Except String Database)
    (generate_content : String → Except String String) : String :=
  if !configured then ai_unavailable_message
  else
    match dbResult with
    | Except.error e => ai_error_fallback e
    | Except.ok db =>
      if (study_data db).length < 3 then
        getting_started_message (study_data db).length
      else
        match generate_content (build_prompt db) with
        | Except.ok text => text
        | Except.error e => ai_error_fallback e

/-! ## Concrete database states used to instantiate the theorems -/

def mkSession (subject : String) (duration : ℤ) (rating : ℤ) (created : String) :
    StudySession :=
  { subject := subject
    duration := duration
    start_time := "09:00"
    end_time := "10:00"
    study_method := "reading"
    difficulty_level := 3
    focus_rating := rating
    notes := ""
    created_at := created }

def mkWellness (date : String) (sleep : ℚ) (stress : ℤ) : WellnessEntry :=
  { date := date
    sleep_hours := sleep
    stress_level := stress
    mood_rating := 3
    exercise_minutes := 0
    caffeine_intake := 0
    notes := ""
    created_at := date }

/-- Two logged study sessions, nothing else. -/
def dbTwo : Database :=
  { study_sessions := [mkSession "Math" 30 4 "2024-01-01", mkSession "Math" 45 3 "2024-01-02"]
    performance_records := []
    wellness_tracking := [] }

/-- Four sessions; the ratings ≥ 4 have per-rating average durations 40
and 60, and both subjects have two sessions. -/
def dbFifty : Database :=
  { study_sessions :=
      [mkSession "Math" 40 4 "2024-01-01", mkSession "Math" 40 4 "2024-01-02",
       mkSession "History" 60 5 "2024-01-03", mkSession "History" 60 5 "2024-01-04"]
    performance_records := []
    wellness_tracking := [] }

/-- Two qualifying subjects, the lower one with mean focus 2 < 3. -/
def dbWarn : Database :=
  { study_sessions :=
      [mkSession "Math" 30 4 "2024-01-01", mkSession "Math" 30 4 "2024-01-02",
       mkSession "Chem" 30 2 "2024-01-03", mkSession "Chem" 30 2 "2024-01-04"]
    performance_records := []
    wellness_tracking := [] }

/-- Two wellness entries on different dates sharing the same
`(sleep_hours, stress_level)` pair, each date matching exactly one study
session. -/
def dbJoin : Database :=
  { study_sessions :=
      [mkSession "Math" 30 4 "2024-01-01", mkSession "Math" 30 2 "2024-01-02"]
    performance_records := []
    wellness_tracking := [mkWellness "2024-01-01" 8 2, mkWellness "2024-01-02" 8 2] }

/-- A performance record with `max_score = 0` (the data model accepts it:
`max_score` is only a non-negative real). -/
def recZero : PerformanceRecord :=
  { subject := "Math"
    assessment_type := "quiz"
    score := 5
    max_score := 0
    date := "2024-01-05"
    topics_covered := ""
    created_at := "2024-01-05" }

/-- A performance record with a non-zero `max_score`. -/
def recOk : PerformanceRecord :=
  { subject := "Math"
    assessment_type := "quiz"
    score := 41
    max_score := 50
    date := "2024-01-06"
    topics_covered := ""
    created_at := "2024-01-06" }

/-! ## Theorems -/

/-- Claim C9.  For every database state, `subject_performance`
(`subjectPerformanceSummary`) returns one row per subject having at least
2 sessions: every returned row's `session_count` is the true number of
sessions of its subject and is at least 2, the returned subjects are
pairwise distinct, every subject with at least 2 sessions appears, and the
rows are sorted descending by mean focus rating. -/
theorem C9_subject_performance (ss : List StudySession) :
    (∀ r ∈ subject_performance ss,
        r.session_count = (subjectGroup ss r.subject).length ∧
          2 ≤ (subjectGroup ss r.subject).length) ∧
      ((subject_performance ss).map SubjectRow.subject).Nodup ∧
        (∀ subj : String, 2 ≤ (subjectGroup ss subj).length →
          ∃ r ∈ subject_performance ss, r.subject = subj) ∧
          (subject_performance ss).Sorted (descBy SubjectRow.avg_focus) := by
  refine ⟨?_, ?_, ?_, ?_⟩
  · intro r hr
    simp only [subject_performance, List.mem_insertionSort, List.mem_filter,
      decide_eq_true_eq] at hr
    obtain ⟨hmem, hcnt⟩ := hr
    simp only [subjectRows, List.mem_map] at hmem
    obtain ⟨subj, _, rfl⟩ := hmem
    exact ⟨rfl, hcnt⟩
  · have hperm : List.Perm (subject_performance ss)
        ((subjectRows ss).filter fun r => decide (2 ≤ r.session_count)) :=
      List.perm_insertionSort _ _
    have hmapsubj : (subjectRows ss).map SubjectRow.subject =
        (ss.map StudySession.subject).dedup := by
      have hid : SubjectRow.subject ∘ subjectRowOf ss = id := funext fun subj => rfl
      rw [subjectRows, List.map_map, hid, List.map_id]
    have hsub : List.Sublist
        (((subjectRows ss).filter fun r => decide (2 ≤ r.session_count)).map
          SubjectRow.subject)
        ((subjectRows ss).map SubjectRow.subject) :=
      (List.filter_sublist _).map _
    have hnd : (((subjectRows ss).filter fun r => decide (2 ≤ r.session_count)).map
        SubjectRow.subject).Nodup := by
      refine List.Nodup.sublist hsub ?_
      rw [hmapsubj]
      exact List.nodup_dedup _
    exact ((hperm.map SubjectRow.subject).nodup_iff).mpr hnd
  · intro subj h2
    have hne : subjectGroup ss subj ≠ [] := by
      intro h
      rw [h] at h2
      simp at h2
    obtain ⟨s, hs⟩ := List.exists_mem_of_ne_nil _ hne
    have hs' := List.mem_filter.mp hs
    have hsubj : subj ∈ (ss.map StudySession.subject).dedup := by
      rw [List.mem_dedup, List.mem_map]
      exact ⟨s, hs'.1, by simpa using hs'.2⟩
    refine ⟨subjectRowOf ss subj, ?_, rfl⟩
    simp only [subject_performance, List.mem_insertionSort, List.mem_filter]
    refine ⟨?_, by simpa [subjectRowOf] using h2⟩
    simp only [subjectRows, List.mem_map]
    exact ⟨subj, hsubj, rfl⟩
  · exact List.sorted_insertionSort _ _

/-- Witness for C9 at a concrete database: the subject `"Math"` has two
sessions in `dbFifty`, so it appears in the summary. -/
theorem C9_witness : ∃ r ∈ subject_performance dbFifty.study_sessions, r.subject = "Math" :=
  (C9_subject_performance dbFifty.study_sessions).2.2.1 "Math" (by decide)

/-- Claim C2, amended.  Every row returned by `wellness_study_correlation`
comes from a join-row group keyed by its `(sleep_hours, stress_level)`
pair with at least 2 contributing join rows (the rows are joined on
matching calendar date, but grouped by the wellness-value pair, not by
date), and its `avg_focus` is the mean focus rating over that group. -/
theorem C2_amended (db : Database) :
    ∀ row ∈ wellness_study_correlation db,
      2 ≤ (corrGroup db (row.sleep_hours, row.stress_level)).length ∧
        row.avg_focus =
          (((corrGroup db (row.sleep_hours, row.stress_level)).map fun p =>
            p.2.focus_rating).sum : ℚ) /
            ((corrGroup db (row.sleep_hours, row.stress_level)).length : ℚ) := by
  intro row hrow
  simp only [wellness_study_correlation, List.mem_map, List.mem_filter,
    decide_eq_true_eq] at hrow
  obtain ⟨k, ⟨_, hcnt⟩, rfl⟩ := hrow
  constructor
  · simpa [corrRowOf] using hcnt
  · simp [corrRowOf]

/-- Counterexample for claim C2 as stated.  In `dbJoin` the two wellness
entries lie on different calendar dates but share the pair `(8, 2)`; the
code returns a single group keyed `(8, 2)` whose two contributing join
rows span the dates 2024-01-01 and 2024-01-02, whereas grouping by
matching calendar date (the spec's words, `spec_sleepFocusCorrelation_byDate`)
leaves every date group with a single row and therefore returns nothing. -/
theorem C2_counterexample :
    (wellness_study_correlation dbJoin).map (fun r => (r.sleep_hours, r.stress_level)) =
        [((8 : ℚ), (2 : ℤ))] ∧
      ((corrGroup dbJoin (8, 2)).map fun p => sqlDATE p.1.date) =
          ["2024-01-01", "2024-01-02"] ∧
        spec_sleepFocusCorrelation_byDate dbJoin = [] := by
  exact ⟨by decide, by decide, by decide⟩

/-- Witness for C2 at a concrete database: the group behind the returned
row of `dbJoin` indeed has at least 2 contributing join rows. -/
theorem C2_witness : 2 ≤ (corrGroup dbJoin (8, 2)).length := by
  obtain ⟨row, hrow, hpair⟩ :
      ∃ row ∈ wellness_study_correlation dbJoin,
        (row.sleep_hours, row.stress_level) = ((8 : ℚ), (2 : ℤ)) := by decide
  have h := (C2_amended dbJoin row hrow).1
  rwa [hpair] at h

/-- Claim C10.  The derived `percentage` attribute divides by `max_score`
without a guard: it returns a value exactly under the precondition
`max_score ≠ 0`, and on a record with `max_score = 0` it raises a
division-by-zero error instead of returning a value. -/
theorem C10_percentage (r : PerformanceRecord) :
    (r.max_score ≠ 0 → ∃ v, r.percentage = Except.ok v) ∧
      (r.max_score = 0 →
        r.percentage = Except.error "ZeroDivisionError: float division by zero") := by
  constructor
  · intro h
    exact ⟨_, by rw [PerformanceRecord.percentage, if_neg h]⟩
  · intro h
    rw [PerformanceRecord.percentage, if_pos h]

/-- Witness for C10 at concrete records: `max_score = 0` raises, a
non-zero `max_score` returns a value. -/
theorem C10_witness :
    recZero.percentage = Except.error "ZeroDivisionError: float division by zero" ∧
      ∃ v, recOk.percentage = Except.ok v :=
  ⟨(C10_percentage recZero).2 rfl, (C10_percentage recOk).1 (by decide)⟩

/-- Helper: with the service configured and the reads succeeding on a
database with fewer than 3 sessions (after the `LIMIT 20` read), the
generator returns the getting-started message. -/
theorem get_ai_insights_few_sessions (db : Database) (g : String → Except String String)
    (h : (study_data db).length < 3) :
    get_ai_insights true (Except.ok db) g =
      getting_started_message (study_data db).length := by
  unfold get_ai_insights
  simp [h]

/-- Counterexample for claim C1 as stated.  With 2 study sessions logged
but no AI credential configured, `get_ai_insights` returns the
"unavailable" message, not the "getting started" message: the
configuration check precedes the session-count gate. -/
theorem C1_counterexample :
    get_ai_insights false (Except.ok dbTwo) (fun _ => Except.ok "AI text") =
        ai_unavailable_message ∧
      ai_unavailable_message ≠ getting_started_message 2 := by
  exact ⟨rfl, by decide⟩

/-- Claim C1, amended.  With fewer than 3 study sessions: when the
credential is configured the generator returns the static getting-started
message parameterized by the session count, and the external service is
never invoked (the result does not depend on it); when the credential is
absent it instead returns the static "unavailable" message (the service
is again not invoked). -/
theorem C1_amended (db : Database) (g g' : String → Except String String)
    (hcount : db.study_sessions.length < 3) :
    get_ai_insights true (Except.ok db) g =
        getting_started_message db.study_sessions.length ∧
      get_ai_insights true (Except.ok db) g = get_ai_insights true (Except.ok db) g' ∧
        get_ai_insights false (Except.ok db) g = ai_unavailable_message := by
  have hlen : (study_data db).length = db.study_sessions.length := by
    rw [study_data, List.length_take, List.length_insertionSort]
    omega
  have hlt : (study_data db).length < 3 := by rw [hlen]; exact hcount
  refine ⟨?_, ?_, rfl⟩
  · rw [get_ai_insights_few_sessions db g hlt, hlen]
  · rw [get_ai_insights_few_sessions db g hlt, get_ai_insights_few_sessions db g' hlt]

/-- Witness for C1 at a concrete database with 2 sessions and the
credential configured. -/
theorem C1_witness :
    get_ai_insights true (Except.ok dbTwo) (fun _ => Except.ok "AI text") =
      getting_started_message 2 :=
  (C1_amended dbTwo (fun _ => Except.ok "AI text") (fun _ => Except.ok "AI text")
    (by decide)).1

/-- Claim C4.  When the external service raises, the failure is caught
and the generator returns the static fallback with the captured error
detail spliced between the two fixed halves; the generator's return type
is `String`, so no service exception ever propagates to the caller. -/
theorem C4_service_failure (db : Database) (g : String → Except String String) (e : String)
    (h3 : 3 ≤ db.study_sessions.length)
    (hsvc : g (build_prompt db) = Except.error e) :
    get_ai_insights true (Except.ok db) g = ai_error_fallback e ∧
      ai_error_fallback e = ai_fallback_pre ++ e ++ ai_fallback_post := by
  have hlen : (study_data db).length = min 20 db.study_sessions.length := by
    rw [study_data, List.length_take, List.length_insertionSort]
  have hge : ¬(study_data db).length < 3 := by rw [hlen]; omega
  refine ⟨?_, rfl⟩
  unfold get_ai_insights
  simp [hge, hsvc]

/-- Witness for C4 at a concrete database with 4 sessions and a service
that raises on its (single) call. -/
theorem C4_witness :
    get_ai_insights true (Except.ok dbFifty)
        (fun _ => Except.error "429 Resource has been exhausted") =
      ai_error_fallback "429 Resource has been exhausted" :=
  (C4_service_failure dbFifty (fun _ => Except.error "429 Resource has been exhausted")
    "429 Resource has been exhausted" (by decide) rfl).1

/-- Counterexample for claim C5 as stated.  A Data Store failure raised
during the Insight Narrative Generator's own reads does not propagate: the
route's `except Exception` handler also wraps the database reads, so the
failure is converted to the defined fallback response. -/
theorem C5_counterexample :
    get_ai_insights true (Except.error "sqlite3.OperationalError: database is locked")
        (fun _ => Except.ok "AI text") =
      ai_error_fallback "sqlite3.OperationalError: database is locked" := rfl

/-- Claim C5, amended.  Data Store failures propagate unmodified to the
request handler for the pattern-analysis operation (which installs no
handler), but inside `get_ai_insights` the catch-all converts them into
the static fallback message instead. -/
theorem C5_amended (e : String) (g : String → Except String String) :
    patterns_route (Except.error e) = Except.error e ∧
      get_ai_insights true (Except.error e) g = ai_error_fallback e :=
  ⟨rfl, rfl⟩

/-- Claim C3: code bug.  The two variants are not functionally
equivalent: `app_old.py`'s `patterns` route calls `get_db_connection`,
which is undefined in that module, so it fails with a `NameError` on
every database state, while `app.py`'s route returns the findings list
(here evaluated on the empty database). -/
theorem C3_variant_divergence :
    app_old_patterns_route emptyDb =
        Except.error "NameError: name get_db_connection is not defined" ∧
      patterns_route (Except.ok emptyDb) = Except.ok [getting_started_finding] ∧
        app_old_patterns_route emptyDb ≠ patterns_route (Except.ok emptyDb) := by
  refine ⟨rfl, congrArg Except.ok (by decide), ?_⟩
  intro h
  rw [app_old_patterns_route, show patterns_route (Except.ok emptyDb) =
    Except.ok (patterns emptyDb) from rfl] at h
  cases h

/-- Helper: step 1 in closed form — the leading `if focus_data:` guard is
subsumed by the high-focus filter being non-empty. -/
theorem step_high_focus_eq (ss : List StudySession) :
    step_high_focus ss =
      if high_focus_rows ss = [] then [] else [high_focus_finding (high_focus_mean ss)] := by
  rw [step_high_focus]
  by_cases h1 : focus_data ss = []
  · rw [if_pos h1]
    have h0 : high_focus_rows ss = [] := by rw [high_focus_rows, h1]; rfl
    rw [if_pos h0]
  · rw [if_neg h1]

/-- Helper: step 4 in closed form. -/
theorem step_sleep_eq (db : Database) :
    step_sleep db =
      if high_sleep_rows db = [] then [] else [sleep_finding (high_sleep_mean db)] := by
  rw [step_sleep]
  by_cases h1 : wellness_study_correlation db = []
  · rw [if_pos h1]
    have h0 : high_sleep_rows db = [] := by rw [high_sleep_rows, h1]; rfl
    rw [if_pos h0]
  · rw [if_neg h1]

/-- Helper: every finding of step 1 is tagged "positive". -/
theorem mem_step_high_focus {ss : List StudySession} {f : Finding}
    (h : f ∈ step_high_focus ss) : f.type = "positive" := by
  rw [step_high_focus_eq] at h
  by_cases h0 : high_focus_rows ss = []
  · rw [if_pos h0] at h
    cases h
  · rw [if_neg h0] at h
    simp only [List.mem_singleton] at h
    rw [h]
    rfl

/-- Helper: every finding of step 4 is tagged "insight". -/
theorem mem_step_sleep {db : Database} {f : Finding}
    (h : f ∈ step_sleep db) : f.type = "insight" := by
  rw [step_sleep_eq] at h
  by_cases h0 : high_sleep_rows db = []
  · rw [if_pos h0] at h
    cases h
  · rw [if_neg h0] at h
    simp only [List.mem_singleton] at h
    rw [h]
    rfl

/-- Helper: steps 2 and 3 on an empty summary. -/
theorem step_subjects_eq_nil {ss : List StudySession}
    (h : subject_performance ss = []) : step_subjects ss = [] := by
  rw [step_subjects, h]

/-- Helper: steps 2 and 3 on a non-empty summary. -/
theorem step_subjects_eq_cons {ss : List StudySession} {best : SubjectRow}
    {rest : List SubjectRow} (h : subject_performance ss = best :: rest) :
    step_subjects ss = top_subject_finding best :: struggling_tail rest := by
  rw [step_subjects, h]

/-- Helper: membership in the struggling-subject tail, in closed form. -/
theorem mem_struggling_tail {rest : List SubjectRow} {f : Finding} :
    f ∈ struggling_tail rest ↔
      ∃ strug, rest.getLast? = some strug ∧ strug.avg_focus < 3 ∧
        f = struggling_finding strug := by
  rw [struggling_tail]
  cases hl : rest.getLast? with
  | none => simp
  | some strug0 =>
    by_cases hlt : strug0.avg_focus < 3
    · simp [if_pos hlt, hlt]
    · simp [if_neg hlt, hlt]

/-- Helper: a "warning" finding comes out of steps 2-3 exactly when more
than one subject qualifies and the last (lowest-ranked) row of the sorted
summary has mean focus below 3. -/
theorem warning_iff_step_subjects (ss : List StudySession) :
    (∃ f ∈ step_subjects ss, f.type = "warning") ↔
      ∃ best rest strug, subject_performance ss = best :: rest ∧
        rest.getLast? = some strug ∧ strug.avg_focus < 3 := by
  cases hsp : subject_performance ss with
  | nil =>
    rw [step_subjects_eq_nil hsp]
    simp
  | cons best0 rest0 =>
    rw [step_subjects_eq_cons hsp]
    constructor
    · rintro ⟨f, hf, hty⟩
      rcases List.mem_cons.mp hf with rfl | hf2
      · simp [top_subject_finding] at hty
      · obtain ⟨strug, hl, hlt, rfl⟩ := mem_struggling_tail.mp hf2
        exact ⟨best0, rest0, strug, rfl, hl, hlt⟩
    · rintro ⟨best, rest, strug, heq, hl, hlt⟩
      injection heq with h1 h2
      subst h1
      subst h2
      exact ⟨struggling_finding strug,
        List.mem_cons.mpr (Or.inr (mem_struggling_tail.mpr ⟨strug, hl, hlt, rfl⟩)), rfl⟩

/-- Helper: a "warning" finding is in the engine's output exactly when
steps 2-3 emit one — steps 1 and 4 tag "positive"/"insight", and the
fallback tags "info". -/
theorem warning_patterns_iff_step (db : Database) :
    (∃ f ∈ patterns db, f.type = "warning") ↔
      ∃ f ∈ step_subjects db.study_sessions, f.type = "warning" := by
  constructor
  · rintro ⟨f, hf, hty⟩
    rw [patterns] at hf
    by_cases hrf : rule_findings db = []
    · rw [if_pos hrf] at hf
      simp only [List.mem_singleton] at hf
      subst hf
      exact absurd hty (by decide)
    · rw [if_neg hrf, rule_findings] at hf
      rcases List.mem_append.mp hf with hf12 | hf3
      · rcases List.mem_append.mp hf12 with hf1 | hf2
        · exact absurd hty (by rw [mem_step_high_focus hf1]; decide)
        · exact ⟨f, hf2, hty⟩
      · exact absurd hty (by rw [mem_step_sleep hf3]; decide)
  · rintro ⟨f, hf, hty⟩
    have hmem : f ∈ rule_findings db := by
      rw [rule_findings]
      exact List.mem_append.mpr (Or.inl (List.mem_append.mpr (Or.inr hf)))
    have hne : rule_findings db ≠ [] := List.ne_nil_of_mem hmem
    refine ⟨f, ?_, hty⟩
    rw [patterns, if_neg hne]
    exact hmem

/-- Helper: in a list sorted descending by mean focus, the last element's
mean focus is a lower bound for every element. -/
theorem sorted_getLast_min :
    ∀ l : List SubjectRow, l.Sorted (descBy SubjectRow.avg_focus) →
      ∀ x, l.getLast? = some x → ∀ q ∈ l, x.avg_focus ≤ q.avg_focus := by
  intro l
  induction l with
  | nil =>
    intro _ x hx
    cases hx
  | cons a t ih =>
    intro hs x hx q hq
    cases t with
    | nil =>
      simp only [List.getLast?_singleton, Option.some.injEq] at hx
      subst hx
      simp only [List.mem_singleton] at hq
      subst hq
      exact le_refl _
    | cons b t2 =>
      rw [List.getLast?_cons_cons] at hx
      have hs' := List.sorted_cons.mp hs
      rcases List.mem_cons.mp hq with rfl | hq2
      · exact hs'.1 x (List.mem_of_mem_getLast? hx)
      · exact ih hs'.2 x hx q hq2

/-- Claim C6.  The engine emits the struggling-subject "warning" finding
if and only if more than one subject qualifies (the summary has more than
one row) and the lowest mean focus rating among the qualifying subjects is
strictly below 3; with a single qualifying subject it never fires. -/
theorem C6_struggling_warning (db : Database) :
    (∃ f ∈ patterns db, f.type = "warning") ↔
      1 < (subject_performance db.study_sessions).length ∧
        ∃ r ∈ subject_performance db.study_sessions,
          (∀ q ∈ subject_performance db.study_sessions, r.avg_focus ≤ q.avg_focus) ∧
            r.avg_focus < 3 := by
  rw [warning_patterns_iff_step, warning_iff_step_subjects]
  have hsorted : (subject_performance db.study_sessions).Sorted
      (descBy SubjectRow.avg_focus) := List.sorted_insertionSort _ _
  constructor
  · rintro ⟨best, rest, strug, heq, hl, hlt⟩
    have hrestne : rest ≠ [] := by
      intro h
      subst h
      cases hl
    have hlast : (subject_performance db.study_sessions).getLast? = some strug := by
      rw [heq]
      cases rest with
      | nil => exact absurd rfl hrestne
      | cons b t =>
        rw [List.getLast?_cons_cons]
        exact hl
    constructor
    · have hpos : 0 < rest.length := List.length_pos.mpr hrestne
      rw [heq, List.length_cons]
      omega
    · exact ⟨strug, List.mem_of_mem_getLast? hlast,
        sorted_getLast_min _ hsorted strug hlast, hlt⟩
  · rintro ⟨hlen, r, hr, _, hlt⟩
    cases hsp : subject_performance db.study_sessions with
    | nil =>
      rw [hsp] at hlen
      simp at hlen
    | cons best rest =>
      have hrestne : rest ≠ [] := by
        rw [hsp, List.length_cons] at hlen
        intro h
        subst h
        simp at hlen
      obtain ⟨strug, hl⟩ : ∃ strug, rest.getLast? = some strug := by
        cases hgl : rest.getLast? with
        | none => exact absurd (List.getLast?_eq_none_iff.mp hgl) hrestne
        | some s => exact ⟨s, rfl⟩
      have hlast : (subject_performance db.study_sessions).getLast? = some strug := by
        rw [hsp]
        cases rest with
        | nil => exact absurd rfl hrestne
        | cons b t =>
          rw [List.getLast?_cons_cons]
          exact hl
      exact ⟨best, rest, strug, rfl, hl,
        lt_of_le_of_lt (sorted_getLast_min _ hsorted strug hlast r hr) hlt⟩

/-- Witness for C6 at a concrete database: in `dbWarn` two subjects
qualify and the lower one has mean focus 2, so the warning fires. -/
theorem C6_witness : ∃ f ∈ patterns dbWarn, f.type = "warning" := by
  have hrowM : subjectRowOf dbWarn.study_sessions "Math" = ⟨"Math", 4, 2, 60⟩ := by
    rw [subjectRowOf, show subjectGroup dbWarn.study_sessions "Math" =
      [mkSession "Math" 30 4 "2024-01-01", mkSession "Math" 30 4 "2024-01-02"] by decide]
    norm_num [mkSession]
  have hrowC : subjectRowOf dbWarn.study_sessions "Chem" = ⟨"Chem", 2, 2, 60⟩ := by
    rw [subjectRowOf, show subjectGroup dbWarn.study_sessions "Chem" =
      [mkSession "Chem" 30 2 "2024-01-03", mkSession "Chem" 30 2 "2024-01-04"] by decide]
    norm_num [mkSession]
  have hsp : subject_performance dbWarn.study_sessions =
      [⟨"Math", 4, 2, 60⟩, ⟨"Chem", 2, 2, 60⟩] := by
    rw [subject_performance, subjectRows,
      show (dbWarn.study_sessions.map StudySession.subject).dedup = ["Math", "Chem"]
        by decide]
    rw [List.map_cons, List.map_cons, List.map_nil, hrowM, hrowC]
    norm_num [List.filter_cons, List.insertionSort, List.orderedInsert, descBy]
  refine (C6_struggling_warning dbWarn).mpr ⟨by rw [hsp]; decide, ?_⟩
  refine ⟨⟨"Chem", 2, 2, 60⟩, by rw [hsp]; decide, ?_, by norm_num⟩
  intro q hq
  rw [hsp] at hq
  rcases List.mem_cons.mp hq with rfl | hq2
  · norm_num
  · rcases List.mem_cons.mp hq2 with rfl | hq3
    · norm_num
    · cases hq3

/-- Helper: every finding of steps 2-3 is tagged "insight" or "warning". -/
theorem mem_step_subjects {ss : List StudySession} {f : Finding}
    (h : f ∈ step_subjects ss) : f.type = "insight" ∨ f.type = "warning" := by
  cases hsp : subject_performance ss with
  | nil =>
    rw [step_subjects_eq_nil hsp] at h
    cases h
  | cons best rest =>
    rw [step_subjects_eq_cons hsp] at h
    rcases List.mem_cons.mp h with rfl | h2
    · left
      rfl
    · obtain ⟨strug, _, _, rfl⟩ := mem_struggling_tail.mp h2
      right
      rfl

/-- Claim C7.  On the empty database the engine produces exactly the one
"info" fallback finding; in general an "info" finding appears in the
output exactly when steps 1-4 produced no findings. -/
theorem C7_fallback_info (db : Database) :
    patterns emptyDb = [getting_started_finding] ∧
      getting_started_finding.type = "info" ∧
        ((∃ f ∈ patterns db, f.type = "info") ↔ rule_findings db = []) := by
  refine ⟨by decide, rfl, ?_⟩
  constructor
  · rintro ⟨f, hf, hty⟩
    by_cases hrf : rule_findings db = []
    · exact hrf
    · exfalso
      rw [patterns, if_neg hrf, rule_findings] at hf
      rcases List.mem_append.mp hf with hf12 | hf3
      · rcases List.mem_append.mp hf12 with hf1 | hf2
        · exact absurd hty (by rw [mem_step_high_focus hf1]; decide)
        · rcases mem_step_subjects hf2 with h | h
          · exact absurd hty (by rw [h]; decide)
          · exact absurd hty (by rw [h]; decide)
      · exact absurd hty (by rw [mem_step_sleep hf3]; decide)
  · intro hrf
    refine ⟨getting_started_finding, ?_, rfl⟩
    rw [patterns, if_pos hrf]
    simp

/-- Witness for C7: on the empty database steps 1-4 produce nothing,
recovered through the theorem from the "info" finding in the output. -/
theorem C7_witness : rule_findings emptyDb = [] :=
  (C7_fallback_info emptyDb).2.2.mp (by decide)

/-- Claim C8.  If some focus rating ≥ 4 is present in `focus_data`, the
engine's output contains the "positive" finding reporting the unweighted
mean of the per-rating average durations over those rows, and it is the
only "positive" finding; if no rating ≥ 4 is present, no "positive"
finding is emitted. -/
theorem C8_high_focus (db : Database) :
    (high_focus_rows db.study_sessions ≠ [] →
        high_focus_finding (high_focus_mean db.study_sessions) ∈ patterns db ∧
          ((patterns db).filter fun f => decide (f.type = "positive")).length = 1) ∧
      (high_focus_rows db.study_sessions = [] →
        ∀ f ∈ patterns db, f.type ≠ "positive") := by
  constructor
  · intro hne
    have hs1 : step_high_focus db.study_sessions =
        [high_focus_finding (high_focus_mean db.study_sessions)] := by
      rw [step_high_focus_eq, if_neg hne]
    have hmem : high_focus_finding (high_focus_mean db.study_sessions) ∈
        rule_findings db := by
      rw [rule_findings, hs1]
      simp
    have hrfne : rule_findings db ≠ [] := List.ne_nil_of_mem hmem
    have hpat : patterns db = rule_findings db := by rw [patterns, if_neg hrfne]
    refine ⟨by rw [hpat]; exact hmem, ?_⟩
    have h2 : (step_subjects db.study_sessions).filter
        (fun f => decide (f.type = "positive")) = [] := by
      rw [List.filter_eq_nil_iff]
      intro f hf
      rcases mem_step_subjects hf with h | h <;> simp [h]
    have h3 : (step_sleep db).filter (fun f => decide (f.type = "positive")) = [] := by
      rw [List.filter_eq_nil_iff]
      intro f hf
      simp [mem_step_sleep hf]
    rw [hpat, rule_findings, List.filter_append, List.filter_append, hs1, h2, h3]
    simp [high_focus_finding]
  · intro hnil f hf hty
    have hs1 : step_high_focus db.study_sessions = [] := by
      rw [step_high_focus_eq, if_pos hnil]
    rw [patterns] at hf
    by_cases hrf : rule_findings db = []
    · rw [if_pos hrf] at hf
      simp only [List.mem_singleton] at hf
      subst hf
      exact absurd hty (by decide)
    · rw [if_neg hrf, rule_findings, hs1] at hf
      simp only [List.nil_append] at hf
      rcases List.mem_append.mp hf with hf2 | hf3
      · rcases mem_step_subjects hf2 with h | h <;> simp [h] at hty
      · simp [mem_step_sleep hf3] at hty

/-- Witness for C8 at a concrete database: in `dbFifty` the per-rating
average durations of the ratings ≥ 4 are 40 and 60, the reported figure
is their unweighted mean 50, and the finding is in the output. -/
theorem C8_witness :
    high_focus_mean dbFifty.study_sessions = 50 ∧
      high_focus_finding 50 ∈ patterns dbFifty := by
  have h50 : high_focus_mean dbFifty.study_sessions = 50 := by
    norm_num [high_focus_mean, high_focus_rows, focus_data, focusRowOf, ratingGroup,
      dbFifty, mkSession, ascBy, List.dedup]
  refine ⟨h50, ?_⟩
  have h := ((C8_high_focus dbFifty).1 (by decide)).1
  rwa [h50] at h

end IntelliPattern
